import Mathlib

/-!
Verification development for the workbench interactive shell
(`workbench_cli/workbench_shell.py`).

The development shallowly embeds the shell logic that the specification
describes: the auto-quote line transformer (`AutoQuoteTransformer.transform`),
the connection lifecycle (`WorkbenchShell.connect` and the `reconnect`
builtin), the command-table builder (`WorkbenchShell._generate_command_dict`),
the worker dispatcher (`WorkbenchShell.work_request`), the sample loader
(`WorkbenchShell.load_sample`) and the session object (`WorkbenchShell.Session`).

External collaborators (the zerorpc transport, the md5 digest of
`hashlib`, the file streamer, the remote sample store) are abstracted as
explicit pure parameters; the logic of the shell itself is translated
line by line from the source.
-/

set_option maxRecDepth 4000

namespace Workbench

/-! ## Python string primitives

`str.replace` in Python 2 rewrites every non-overlapping occurrence of the
pattern, scanning left to right, and for an empty pattern inserts the
replacement at every character boundary including both ends. -/

/-- One step of Python `str.replace` over character lists; `fuel` bounds the
recursion and is instantiated with the length of the subject string, which
suffices because each step consumes at least one character when the pattern
is nonempty. -/
def replCharsFuel (pat rep : List Char) : Nat → List Char → List Char
  | 0, s => s
  | _ + 1, [] => []
  | fuel + 1, c :: rest =>
    if List.isPrefixOf pat (c :: rest) then
      rep ++ replCharsFuel pat rep fuel (List.drop (pat.length - 1) rest)
    else
      c :: replCharsFuel pat rep fuel rest

/-- Python `s.replace(pat, rep)`: empty patterns insert `rep` at every
boundary (as CPython does), nonempty patterns rewrite every non-overlapping
occurrence left to right. -/
def pyReplace (s pat rep : String) : String :=
  if pat.data = [] then
    String.mk (rep.data ++ s.data.flatMap (fun c => c :: rep.data))
  else
    String.mk (replCharsFuel pat.data rep.data s.data.length s.data)

/-! ## Tokenization used by `AutoQuoteTransformer.transform`

The source splits with `re.split(' |;|,|(|)|\'|"', line)`.  In that pattern
`(` and `)` are not escaped, so they form an empty alternation group `(|)`.
Consequences, faithfully reproduced here:
  * the group can only match the empty string, and Python 2 `re.split`
    never splits on an empty match, so the effective separator characters
    are space, `;` and `,` (the quote alternatives are preempted by the
    empty group, which is tried before them);
  * because the pattern contains a capture group that never participates,
    every split point contributes one `None` entry to the result list
    (the `None` the source later removes from `token_set`).
The raw result list is therefore the list of pieces interleaved with one
`None` marker per split. -/

/-- The characters on which the tokenizing regex actually splits. -/
def sepChars : List Char := [' ', ';', ',']

/-- The bail-out characters of step 1 of the transform. -/
def skipSymbols : List Char := [';', ',', '\'', '"', '(', ')']

/-- Split a character list on `sepChars`, keeping empty pieces, preserving
left-to-right order.  The result is always nonempty. -/
def splitPieces : List Char → List (List Char)
  | [] => [[]]
  | c :: rest =>
    match splitPieces rest with
    | [] => [[]]
    | p :: ps => if c ∈ sepChars then [] :: p :: ps else (c :: p) :: ps

/-- The string pieces of a line, in order (the non-`None` entries of the
raw `re.split` result). -/
def linePieces (line : String) : List String :=
  (splitPieces line.data).map (fun cs => String.mk cs)

/-- `num_tokens` of the source: the length of the raw `re.split` result,
which interleaves one `None` marker per split with the pieces, hence
`2 * pieces - 1`. -/
def numTokens (line : String) : Nat :=
  2 * (linePieces line).length - 1

/-- `first_token` of the source: `token_list[0]`, which is always the first
piece (`re.split` never starts with a separator marker). -/
def firstToken (line : String) : String :=
  (linePieces line).headD ""

/-- First-occurrence deduplication; stands for the Python `set` of tokens.
Python set iteration order is unspecified, so theorems whose truth could
depend on the iteration order are stated over explicit orders via
`transformCore`. -/
def distinctTokens (ps : List String) : List String :=
  ps.foldl (fun acc t => if t ∈ acc then acc else acc ++ [t]) []

/-- `AutoQuoteTransformer.transform`, parameterized by the iteration order
`tokOrder` of the token set.  Mirrors the source step by step:
bail-out on skip symbols; gate on `num_tokens > 1` and membership of the
first token in the command set; help branch quotes every distinct token
except `"help"` itself; general branch quotes every distinct token not
found in the namespace token set.  Quoting a token rewrites every
occurrence of it in the whole line via `str.replace`. -/
def transformCore (line : String) (commandSet nsNames tokOrder : List String) : String :=
  if skipSymbols.any (fun c => line.data.any (fun x => x == c)) then
    line
  else if 1 < numTokens line ∧ firstToken line ∈ commandSet then
    if firstToken line = "help" then
      (tokOrder.filter (fun t => !(t == "help"))).foldl
        (fun l t => pyReplace l t ("\"" ++ t ++ "\"")) line
    else
      tokOrder.foldl
        (fun l t => if t ∈ nsNames then l else pyReplace l t ("\"" ++ t ++ "\"")) line
  else
    line

/-- `AutoQuoteTransformer.transform` with the token set iterated in
first-occurrence order. -/
def transform (line : String) (commandSet nsNames : List String) : String :=
  transformCore line commandSet nsNames (distinctTokens (linePieces line))

/-! ## Session state

`WorkbenchShell.Session` of the source: filename, md5, short_md5, server. -/

/-- The per-user session object. -/
structure Session where
  filename : Option String
  md5 : Option String
  short_md5 : String
  server : String
deriving DecidableEq

/-- `Session.__init__`: empty identity, placeholder short hash. -/
def Session.start : Session :=
  { filename := none, md5 := none, short_md5 := "-", server := "localhost" }

/-! ## Capability registry (`_generate_command_dict`)

The Python dict is modeled by its lookup function; insertion overwrites the
previous binding for a key, exactly as dict assignment and `dict.update` do.
Entries are tracked by their provenance kind, which is what the precedence
claims are about. -/

/-- Provenance of a command-table entry. -/
inductive EntryKind where
  | worker
  | remoteCommand
  | builtin
deriving DecidableEq

/-- What the connected server advertises. -/
structure ServerCaps where
  workers : List String
  commands : List String
deriving DecidableEq

/-- The empty dict. -/
def emptyDict : String → Option EntryKind := fun _ => none

/-- Dict assignment `d[name] = entry`: later writes win. -/
def dictInsert (d : String → Option EntryKind) (name : String) (k : EntryKind) :
    String → Option EntryKind :=
  fun x => if x = name then some k else d x

/-- The keys of the `general` dict of `_generate_command_dict`:
`workbench` (the raw client handle), `help`, `load_sample`, `reconnect`,
`version`, `versions` and `short_md5`. -/
def builtinNames : List String :=
  ["workbench", "help", "load_sample", "reconnect", "version", "versions", "short_md5"]

/-- `_generate_command_dict`: first all workers, then all remote commands
(overwriting same-named workers), then `commands.update(general)` overlays
the builtins, which therefore always win. -/
def generate_command_dict (caps : ServerCaps) : String → Option EntryKind :=
  builtinNames.foldl (fun d b => dictInsert d b EntryKind.builtin)
    (caps.commands.foldl (fun d c => dictInsert d c EntryKind.remoteCommand)
      (caps.workers.foldl (fun d w => dictInsert d w EntryKind.worker) emptyDict))

/-! ## Connection lifecycle (`connect` and the `reconnect` builtin)

The zerorpc transport is abstracted as a `Network` telling, per server
address, whether the probe call succeeds and what capabilities the server
advertises.  `WorkbenchShell.connect` probes with a short heartbeat and, on
`LostRemote`, prints an error and calls `sys.exit(1)`, which raises
`SystemExit(1)`; on probe success it replaces the client handle.  What the
raised `SystemExit` does depends on the calling context: at startup
(`__init__`) nothing handles it, so the process terminates with status 1,
while the `reconnect` builtin — `lambda info=self.server_info:
self.connect(info)` — executes inside the embedded IPython REPL, whose
`run_code` catches `SystemExit` from user code and keeps the loop alive,
so a failed reconnect leaves the shell running with the error displayed
and `self.workbench`, the command table and the session all untouched
(the exception propagates before the old handle would be replaced).
A reconnect touches nothing else: in particular it does not call
`_generate_command_dict` again and does not touch the session. -/

/-- The server address (`server_info`). -/
structure ServerInfo where
  server : String
  port : String
deriving DecidableEq

/-- Abstraction of the network: probe reachability and advertised
capabilities per server address. -/
structure Network where
  reachable : ServerInfo → Bool
  caps : ServerInfo → ServerCaps

/-- Result of `WorkbenchShell.connect`: on probe failure an error message
is printed and `sys.exit(1)` raises `SystemExit(1)` — whether the process
actually ends is decided by the caller's context — and on probe success
the client handle now points at `info`. -/
inductive ConnectOutcome where
  | sysExit (code : Nat) (errMsg : String)
  | connected (info : ServerInfo)
deriving DecidableEq

/-- The error message `connect` prints before `sys.exit(1)` (colorama color
codes elided). -/
def connectErrMsg (info : ServerInfo) : String :=
  "Error: Could not connect to Workbench Server at " ++ info.server ++ ":" ++ info.port

/-- `WorkbenchShell.connect`: probe failure prints the error and raises
`SystemExit(1)`; probe success opens the working connection to `info`. -/
def connect (net : Network) (info : ServerInfo) : ConnectOutcome :=
  if net.reachable info then ConnectOutcome.connected info
  else ConnectOutcome.sysExit 1 (connectErrMsg info)

/-- The state the shell controller owns: the connected server, the command
table built by `_generate_command_dict`, and the session. -/
structure ShellState where
  connectedTo : ServerInfo
  commandDict : String → Option EntryKind
  session : Session

/-- Result of invoking the `reconnect` builtin from the REPL: either the
probe failed, the `SystemExit` was caught by IPython's `run_code`, and the
shell is alive with the error displayed and the previous state preserved,
or the probe succeeded and the client handle was replaced. -/
inductive ReconnectResult where
  | recovered (errMsg : String) (s : ShellState)
  | ok (s : ShellState)

/-- The `reconnect` builtin as executed by the embedded IPython REPL: just
`self.connect(info)` run by `run_code`.  On probe success only the client
handle is replaced; the command table and the session are left exactly as
they were.  On probe failure the raised `SystemExit(1)` is caught by
`run_code`, so the shell stays alive and the whole previous state —
client handle, command table, session — is preserved, the error message
having been printed. -/
def reconnect (net : Network) (info : ServerInfo) (s : ShellState) : ReconnectResult :=
  match connect net info with
  | ConnectOutcome.sysExit _ msg => ReconnectResult.recovered msg s
  | ConnectOutcome.connected i => ReconnectResult.ok { s with connectedTo := i }

/-- `WorkbenchShell.__init__`: connect (fatal on probe failure, since
nothing handles the `SystemExit` at startup, so the process terminates
with that status), create the session, build the command table once. -/
def shellStart (net : Network) (info : ServerInfo) : Except Nat ShellState :=
  match connect net info with
  | ConnectOutcome.sysExit c _ => Except.error c
  | ConnectOutcome.connected i =>
      Except.ok
        { connectedTo := i
          commandDict := generate_command_dict (net.caps i)
          session := Session.start }

/-! ## Sample loading (`load_sample`)

Paths are modeled as `(basename, content)` pairs; `hashlib.md5(...)` and the
remote sample store are abstracted as the pure functions of an `UploadEnv`.
The source reads each file, hashes it, skips the upload when the server
already has the hash (`has_sample`), otherwise streams it and adopts the
hash the streamer returns; it then overwrites the session sample fields. -/

/-- A file as `load_sample` sees it: its basename and its raw bytes. -/
structure FileEntry where
  name : String
  content : List Nat
deriving DecidableEq

/-- Abstraction of the collaborators of `load_sample`: the md5 hex digest,
the `has_sample` query of the server, and the hash returned by
`stream_to_workbench`. -/
structure UploadEnv where
  md5Hex : List Nat → String
  hasSample : String → Bool
  streamHash : List Nat → String

/-- Argument of `load_sample`: a plain file, or a directory with its
directly contained files in `os.listdir` order. -/
inductive LoadInput where
  | file (f : FileEntry)
  | dir (children : List FileEntry)

/-- The `file_list` the source builds from the path. -/
def fileList : LoadInput → List FileEntry
  | LoadInput.file f => [f]
  | LoadInput.dir cs => cs

/-- One iteration of the upload loop: hash, deduplicate against the server,
stream when absent, store filename / md5 / short md5 into the session.
The second component records whether the file was streamed. -/
def loadOne (env : UploadEnv) (sess : Session) (f : FileEntry) : Session × Bool :=
  let localMd5 := env.md5Hex f.content
  let md5 := if env.hasSample localMd5 then localMd5 else env.streamHash f.content
  ({ filename := some f.name
     md5 := some md5
     short_md5 := md5.take 6
     server := sess.server },
   !env.hasSample localMd5)

/-- The upload loop, also accumulating the streamed-or-not log. -/
def loadFold (env : UploadEnv) (acc : Session × List Bool) (fs : List FileEntry) :
    Session × List Bool :=
  fs.foldl (fun acc f =>
    let r := loadOne env acc.1 f
    (r.1, acc.2 ++ [r.2])) acc

/-- `WorkbenchShell.load_sample`. -/
def load_sample (env : UploadEnv) (sess : Session) (inp : LoadInput) : Session × List Bool :=
  loadFold env (sess, []) (fileList inp)

/-- The hash the session adopts for a file: the local md5 when the server
already has it, otherwise the hash returned by the streamer. -/
def adoptedMd5 (env : UploadEnv) (f : FileEntry) : String :=
  if env.hasSample (env.md5Hex f.content) then env.md5Hex f.content
  else env.streamHash f.content

/-! ## Worker dispatch (`work_request`) -/

/-- Python truthiness of an optional string: `None` and `''` are falsy. -/
def pyFalsyStr : Option String → Bool
  | none => true
  | some s => s == ""

/-- What a `work_request` call produces: a purely local error display value,
or an RPC `work_request(worker, md5)` issued to the server. -/
inductive WorkResult where
  | localError (msg : String)
  | rpcResult (worker : String) (md5 : String)
deriving DecidableEq

/-- `WorkbenchShell.work_request`; the second component counts the network
calls the invocation makes. -/
def work_request (worker : String) (md5arg : Option String) (sess : Session) :
    WorkResult × Nat :=
  if pyFalsyStr md5arg && pyFalsyStr sess.md5 then
    (WorkResult.localError "Must call worker with an md5 argument...", 0)
  else if pyFalsyStr md5arg then
    (WorkResult.rpcResult worker (sess.md5.getD ""), 1)
  else
    (WorkResult.rpcResult worker (md5arg.getD ""), 1)

/-! ## Session lifecycle and its invariant -/

/-- The operations of the shell that touch (or could touch) the session:
`load_sample`, and a successful `connect`/`reconnect` (which never writes
the session). -/
inductive SessOp where
  | load (env : UploadEnv) (inp : LoadInput)
  | reconnectOp

/-- Effect of one operation on the session. -/
def applyOp (s : Session) : SessOp → Session
  | SessOp.load env inp => (load_sample env s inp).1
  | SessOp.reconnectOp => s

/-- Run a sequence of operations from a starting session. -/
def runOps (s : Session) (ops : List SessOp) : Session :=
  ops.foldl applyOp s

/-- The short-hash invariant: `short_md5` is the first six characters of
`md5` when the latter is set, and the placeholder `"-"` otherwise. -/
def sessionInv (s : Session) : Prop :=
  s.short_md5 = (match s.md5 with
    | none => "-"
    | some h => h.take 6)

/-! ## Concrete fixtures shared by witnesses and counterexamples -/

/-- A server address. -/
def infoA : ServerInfo := { server := "hostA", port := "4242" }

/-- A second server address. -/
def infoB : ServerInfo := { server := "hostB", port := "4242" }

/-- A network on which both servers answer the probe; `hostB` advertises a
worker called `newworker` that `hostA` does not have. -/
def netAB : Network :=
  { reachable := fun _ => true
    caps := fun i =>
      if i.server = "hostB" then { workers := ["newworker"], commands := [] }
      else { workers := [], commands := [] } }

/-- A network on which no probe ever succeeds. -/
def deadNet : Network :=
  { reachable := fun _ => false
    caps := fun _ => { workers := [], commands := [] } }

/-- The shell state as built at startup against `hostA` on `netAB`. -/
def shellA : ShellState :=
  { connectedTo := infoA
    commandDict := generate_command_dict (netAB.caps infoA)
    session := Session.start }

/-- A session holding a loaded sample, used by witnesses. -/
def loadedSession : Session :=
  { filename := some "bad.exe", md5 := some "abcdef12", short_md5 := "abcdef",
    server := "localhost" }

/-- Upload environment fixture: content `[0]` hashes to a value the server
already has, everything else must be streamed and the streamer answers with
its own hash. -/
def envW : UploadEnv :=
  { md5Hex := fun bs => if bs = [0] then "aaaaaaaa" else "cccccccc"
    hasSample := fun s => s == "aaaaaaaa"
    streamHash := fun _ => "bbbbbbbb" }

/-- Directory listing fixture of two files. -/
def csW : List FileEntry :=
  [{ name := "f1", content := [0] }, { name := "f2", content := [1] }]

/-- Capability fixture: `help` collides with a builtin, `pslist` is both a
worker and a remote command, `meta` is a pure worker. -/
def capsW : ServerCaps :=
  { workers := ["help", "pslist", "meta"], commands := ["pslist"] }

/-! ## Helper lemmas -/

/-- Folding dict assignments of one kind over a list of names: a key ends up
bound to that kind exactly when it occurs in the list, and is untouched
otherwise. -/
theorem dictFold_mem (k : EntryKind) :
    ∀ (l : List String) (d : String → Option EntryKind) (x : String),
      (l.foldl (fun d n => dictInsert d n k) d) x = if x ∈ l then some k else d x := by
  intro l
  induction l with
  | nil => intro d x; simp
  | cons n t ih =>
    intro d x
    simp only [List.foldl_cons, ih, dictInsert]
    by_cases hx : x ∈ t
    · simp [hx]
    · by_cases hxn : x = n <;> simp [hx, hxn, List.mem_cons]

/-- The session produced by one upload-loop iteration, in terms of the
adopted hash. -/
theorem loadOne_fst (env : UploadEnv) (sess : Session) (f : FileEntry) :
    (loadOne env sess f).1 =
      { filename := some f.name
        md5 := some (adoptedMd5 env f)
        short_md5 := (adoptedMd5 env f).take 6
        server := sess.server } := by
  by_cases hs : env.hasSample (env.md5Hex f.content) <;> simp [loadOne, adoptedMd5, hs]

/-- After a nonempty upload loop the session holds the data of the last
file, with the server label carried through unchanged. -/
theorem loadFold_fst (env : UploadEnv) :
    ∀ (fs : List FileEntry) (s : Session) (log : List Bool) (h : fs ≠ []),
      (loadFold env (s, log) fs).1 =
        { filename := some ((fs.getLast h).name)
          md5 := some (adoptedMd5 env (fs.getLast h))
          short_md5 := (adoptedMd5 env (fs.getLast h)).take 6
          server := s.server } := by
  intro fs
  induction fs with
  | nil => intro s log h; exact absurd rfl h
  | cons f rest ih =>
    intro s log h
    cases rest with
    | nil =>
      show (loadFold env ((loadOne env s f).1, log ++ [(loadOne env s f).2]) []).1 = _
      simp [loadFold, loadOne_fst, List.getLast]
    | cons g rest2 =>
      have hne : g :: rest2 ≠ [] := List.cons_ne_nil _ _
      show (loadFold env ((loadOne env s f).1, log ++ [(loadOne env s f).2]) (g :: rest2)).1 = _
      rw [ih _ _ hne, loadOne_fst]
      rw [List.getLast_cons hne]

/-- The streamed-or-not log of the upload loop: one entry per file, true
exactly when the server did not already have the local hash. -/
theorem loadFold_snd (env : UploadEnv) :
    ∀ (fs : List FileEntry) (s : Session) (log : List Bool),
      (loadFold env (s, log) fs).2 =
        log ++ fs.map (fun g => !env.hasSample (env.md5Hex g.content)) := by
  intro fs
  induction fs with
  | nil => intro s log; simp [loadFold]
  | cons f rest ih =>
    intro s log
    show (loadFold env ((loadOne env s f).1, log ++ [(loadOne env s f).2]) rest).2 = _
    rw [ih]
    simp [loadOne]

/-- One upload-loop iteration always leaves the session satisfying the
short-hash invariant. -/
theorem sessionInv_loadOne (env : UploadEnv) (sess : Session) (f : FileEntry) :
    sessionInv (loadOne env sess f).1 := by
  simp [loadOne, sessionInv]

/-- The upload loop preserves the short-hash invariant. -/
theorem sessionInv_loadFold (env : UploadEnv) :
    ∀ (fs : List FileEntry) (s : Session) (log : List Bool),
      sessionInv s → sessionInv (loadFold env (s, log) fs).1 := by
  intro fs
  induction fs with
  | nil => intro s log hs; exact hs
  | cons f rest ih =>
    intro s log hs
    show sessionInv (loadFold env ((loadOne env s f).1, log ++ [(loadOne env s f).2]) rest).1
    exact ih _ _ (sessionInv_loadOne env s f)

/-- Every shell operation preserves the short-hash invariant. -/
theorem sessionInv_applyOp (s : Session) (op : SessOp) :
    sessionInv s → sessionInv (applyOp s op) := by
  cases op with
  | load env inp => intro hs; exact sessionInv_loadFold env (fileList inp) s [] hs
  | reconnectOp => intro hs; exact hs

/-- Any sequence of shell operations preserves the short-hash invariant. -/
theorem sessionInv_runOps :
    ∀ (ops : List SessOp) (s : Session), sessionInv s → sessionInv (runOps s ops) := by
  intro ops
  induction ops with
  | nil => intro s hs; exact hs
  | cons op rest ih => intro s hs; exact ih _ (sessionInv_applyOp s op hs)

/-! ## Claims -/

/-- C1 (counterexample): the claim states that the leading command token is
left bare in the general branch, and in particular that
`transform("pslist md5", set(["pslist"]), set(["md5"]))` returns
`"pslist md5"` unchanged.  The source never removes the first token from
`token_set` in the general branch, so `pslist`, not being in the namespace
set `set(["md5"])`, is quoted too; the result differs from the claim under
both possible iteration orders of the two-element token set. -/
theorem c1_counterexample :
    distinctTokens (linePieces "pslist md5") = ["pslist", "md5"] ∧
    transformCore "pslist md5" ["pslist"] ["md5"] ["pslist", "md5"] ≠ "pslist md5" ∧
    transformCore "pslist md5" ["pslist"] ["md5"] ["md5", "pslist"] ≠ "pslist md5" := by
  decide

/-- C1 (amended): in the general branch every distinct token of the line,
including the leading command token itself, is quoted everywhere unless it
occurs in `namespaceNames`; only namespace members are left bare.  So
`transform("pslist md5", set(["pslist"]), set(["md5"]))` returns
`'"pslist" md5'`, `transform("pslist foo", set(["pslist"]), set(["md5"]))`
returns `'"pslist" "foo"'` (under either token iteration order), and the
line survives unchanged exactly when every token is a namespace member, as
in `transform("pslist md5", set(["pslist"]), set(["pslist", "md5"]))`. -/
theorem c1_amended :
    transform "pslist md5" ["pslist"] ["md5"] = "\"pslist\" md5" ∧
    transform "pslist foo" ["pslist"] ["md5"] = "\"pslist\" \"foo\"" ∧
    transformCore "pslist foo" ["pslist"] ["md5"] ["foo", "pslist"] = "\"pslist\" \"foo\"" ∧
    transform "pslist md5" ["pslist"] ["pslist", "md5"] = "pslist md5" := by
  decide

/-- C2 (counterexample): the claim counts tokens after discarding
empty/absent entries.  The source takes `num_tokens = len(token_list)` on
the raw `re.split` result, which keeps the `None` separator markers and
empty pieces: the line `"pslist "` has a single nonempty token, so the
claim requires it to pass unchanged, yet its raw list
`["pslist", None, ""]` has length 3 and the line is transformed (under both
iteration orders of its token set, whose first-occurrence order is
`["pslist", ""]`). -/
theorem c2_counterexample :
    distinctTokens (linePieces "pslist ") = ["pslist", ""] ∧
    transformCore "pslist " ["pslist"] [] ["pslist", ""] ≠ "pslist " ∧
    transformCore "pslist " ["pslist"] [] ["", "pslist"] ≠ "pslist " ∧
    transform "pslist " ["pslist"] [] ≠ "pslist " := by
  decide

/-- C2 (amended): the gate works on the raw `re.split` result, whose length
counts the pieces plus one `None` marker per split and whose first entry is
the first piece.  Whenever that raw length is below 2 (the line contains no
separator character) or the first piece is not a known command, the line is
returned unchanged. -/
theorem c2_amended (line : String) (cmds ns : List String)
    (h : numTokens line < 2 ∨ firstToken line ∉ cmds) :
    transform line cmds ns = line := by
  by_cases hA : (skipSymbols.any fun c => line.data.any fun x => x == c) = true
  · simp [transform, transformCore, hA]
  · have hB : ¬(1 < numTokens line ∧ firstToken line ∈ cmds) := by
      rintro ⟨h1, h2⟩
      rcases h with h | h
      · omega
      · exact h h2
    simp [transform, transformCore, hA, hB]

/-- C2 (witness): a single-token line with a known command name passes
through unchanged. -/
theorem c2_witness :
    (numTokens "pslist" < 2 ∨ firstToken "pslist" ∉ ["pslist"]) ∧
      transform "pslist" ["pslist"] [] = "pslist" :=
  ⟨Or.inl (by decide), c2_amended "pslist" ["pslist"] [] (Or.inl (by decide))⟩

/-- C3 (counterexample): the claim states that a successful reconnect fully
rebuilds the command table to reflect the new server.  The `reconnect`
builtin is `lambda info=self.server_info: self.connect(info)` and never
calls `_generate_command_dict` again: after reconnecting to `hostB`, whose
capability set advertises the worker `newworker`, the table still has no
entry for it, although a rebuild against `hostB` would map it to a worker
entry. -/
theorem c3_counterexample :
    reconnect netAB infoB shellA = ReconnectResult.ok { shellA with connectedTo := infoB } ∧
    ({ shellA with connectedTo := infoB } : ShellState).commandDict "newworker" = none ∧
    generate_command_dict (netAB.caps infoB) "newworker" = some EntryKind.worker := by
  refine ⟨rfl, ?_, ?_⟩ <;> decide

/-- C3 (amended): after every successful reconnect the client handle points
at the new server, but the command table is left exactly as it was built at
startup (it is not rebuilt), and `Session.md5` is unchanged. -/
theorem c3_amended (net : Network) (info : ServerInfo) (s : ShellState)
    (h : net.reachable info = true) :
    reconnect net info s = ReconnectResult.ok { s with connectedTo := info } ∧
    ({ s with connectedTo := info } : ShellState).commandDict = s.commandDict ∧
    ({ s with connectedTo := info } : ShellState).session.md5 = s.session.md5 := by
  refine ⟨?_, rfl, rfl⟩
  simp [reconnect, connect, h]

/-- C3 (witness): a successful reconnect on a concrete network. -/
theorem c3_witness :
    netAB.reachable infoB = true ∧
      reconnect netAB infoB shellA = ReconnectResult.ok { shellA with connectedTo := infoB } :=
  ⟨rfl, (c3_amended netAB infoB shellA rfl).1⟩

/-- C4: a probe failure during an explicit operator-initiated reconnect is
recoverable: `connect` prints the error message and raises `SystemExit(1)`,
which the embedded IPython REPL catches (unlike at startup, where it
terminates the process), so the shell stays alive and the whole previous
connection state — client handle, command table, session — is preserved,
until a later reconnect against a reachable server succeeds and replaces
the connection. -/
theorem c4_reconnect_recoverable (net : Network) (info : ServerInfo) (s : ShellState)
    (h : net.reachable info = false) :
    reconnect net info s = ReconnectResult.recovered (connectErrMsg info) s ∧
    ∀ (net2 : Network) (info2 : ServerInfo), net2.reachable info2 = true →
      reconnect net2 info2 s = ReconnectResult.ok { s with connectedTo := info2 } := by
  constructor
  · simp [reconnect, connect, h]
  · intro net2 info2 h2
    simp [reconnect, connect, h2]

/-- C4 (witness): an unreachable probe during reconnect on a concrete
network leaves the concrete shell state intact with the error displayed,
and the same untouched state then reconnects successfully elsewhere. -/
theorem c4_witness :
    deadNet.reachable infoA = false ∧
      reconnect deadNet infoA shellA = ReconnectResult.recovered (connectErrMsg infoA) shellA ∧
      reconnect netAB infoB shellA = ReconnectResult.ok { shellA with connectedTo := infoB } :=
  ⟨rfl, (c4_reconnect_recoverable deadNet infoA shellA rfl).1,
    (c4_reconnect_recoverable deadNet infoA shellA rfl).2 netAB infoB rfl⟩

/-- C5: in the built command table the precedence is
builtin > remote command > worker: builtin names always map to the builtin
entry, a non-builtin name advertised as a remote command maps to the
remote-command entry even when it is also a worker, and a name only
advertised as a worker maps to the worker entry.  The table is a pure
function of the advertised capability sets, so every rebuild yields the
same table. -/
theorem c5_precedence (caps : ServerCaps) (name : String) :
    (name ∈ builtinNames → generate_command_dict caps name = some EntryKind.builtin) ∧
    (name ∉ builtinNames → name ∈ caps.commands →
      generate_command_dict caps name = some EntryKind.remoteCommand) ∧
    (name ∉ builtinNames → name ∉ caps.commands → name ∈ caps.workers →
      generate_command_dict caps name = some EntryKind.worker) := by
  refine ⟨fun hb => ?_, fun hb hc => ?_, fun hb hc hw => ?_⟩
  · simp [generate_command_dict, dictFold_mem, hb]
  · simp [generate_command_dict, dictFold_mem, hb, hc]
  · simp [generate_command_dict, dictFold_mem, emptyDict, hb, hc, hw]

/-- C5 (witness): on a capability set where `help` collides with a builtin,
`pslist` is both worker and remote command, and `meta` is a pure worker,
the table resolves each name at its highest-precedence kind. -/
theorem c5_witness :
    ("help" ∈ builtinNames ∧
      generate_command_dict capsW "help" = some EntryKind.builtin) ∧
    ("pslist" ∉ builtinNames ∧ "pslist" ∈ capsW.commands ∧
      generate_command_dict capsW "pslist" = some EntryKind.remoteCommand) ∧
    ("meta" ∉ builtinNames ∧ "meta" ∉ capsW.commands ∧ "meta" ∈ capsW.workers ∧
      generate_command_dict capsW "meta" = some EntryKind.worker) :=
  ⟨⟨by decide, (c5_precedence capsW "help").1 (by decide)⟩,
   ⟨by decide, by decide, (c5_precedence capsW "pslist").2.1 (by decide) (by decide)⟩,
   ⟨by decide, by decide, by decide,
     (c5_precedence capsW "meta").2.2 (by decide) (by decide) (by decide)⟩⟩

/-- C6: a worker invocation with no explicit hash while the session holds
none produces the local error display value and makes zero network calls;
with no explicit hash but a loaded session, the session hash is
substituted and exactly one RPC is issued. -/
theorem c6_work_request (worker : String) (sess : Session) :
    (sess.md5 = none →
      work_request worker none sess =
        (WorkResult.localError "Must call worker with an md5 argument...", 0)) ∧
    (∀ h, sess.md5 = some h → h ≠ "" →
      work_request worker none sess = (WorkResult.rpcResult worker h, 1)) := by
  constructor
  · intro hm
    simp [work_request, pyFalsyStr, hm]
  · intro h hm hne
    simp [work_request, pyFalsyStr, hm, hne]

/-- C6 (witness): the fresh session has no sample and the dispatcher fails
locally with zero calls; a loaded session substitutes its hash with one
call. -/
theorem c6_witness :
    Session.start.md5 = none ∧
    work_request "pslist" none Session.start =
      (WorkResult.localError "Must call worker with an md5 argument...", 0) ∧
    loadedSession.md5 = some "abcdef12" ∧ ("abcdef12" : String) ≠ "" ∧
    work_request "pslist" none loadedSession = (WorkResult.rpcResult "pslist" "abcdef12", 1) :=
  ⟨rfl, (c6_work_request "pslist" Session.start).1 rfl, rfl, by decide,
   (c6_work_request "pslist" loadedSession).2 "abcdef12" rfl (by decide)⟩

/-- C7: any line containing one of the literal characters `;`, `,`, `'`,
`"`, `(`, `)` is returned unchanged by the transform, for every command-name
set and namespace-name set. -/
theorem c7_bailout (line : String) (cmds ns : List String)
    (h : ∃ c, c ∈ skipSymbols ∧ c ∈ line.data) :
    transform line cmds ns = line := by
  obtain ⟨c, hc, hl⟩ := h
  have hA : (skipSymbols.any fun c => line.data.any fun x => x == c) = true := by
    refine List.any_eq_true.mpr ⟨c, hc, ?_⟩
    exact List.any_eq_true.mpr ⟨c, hl, by simp⟩
  simp [transform, transformCore, hA]

/-- C7 (witness): the parenthesized call survives untouched. -/
theorem c7_witness :
    (∃ c, c ∈ skipSymbols ∧ c ∈ ("pslist(md5)" : String).data) ∧
      transform "pslist(md5)" ["pslist"] ["md5"] = "pslist(md5)" :=
  ⟨⟨'(', by decide, by decide⟩,
   c7_bailout "pslist(md5)" ["pslist"] ["md5"] ⟨'(', by decide, by decide⟩⟩

/-- C8: in the help branch every distinct remaining token other than
`"help"` itself has all of its occurrences wrapped in double quotes,
whatever the namespace-name set is: `transform("help pslist", ...)` gives
`'help "pslist"'` and a repeated token is quoted at every occurrence. -/
theorem c8_help_branch (ns : List String) :
    transform "help pslist" ["help", "pslist"] ns = "help \"pslist\"" ∧
    transform "help pslist pslist" ["help", "pslist"] ns = "help \"pslist\" \"pslist\"" := by
  constructor <;> rfl

/-- C9: in every session state reachable from shell start by load-sample
and reconnect operations, `short_md5` is the first six characters of `md5`
when the latter is set and the placeholder `"-"` otherwise. -/
theorem c9_short_md5_invariant (ops : List SessOp) :
    sessionInv (runOps Session.start ops) :=
  sessionInv_runOps ops Session.start rfl

/-- C10: `load_sample` on a directory processes each directly contained
file in listing order, deduplicating each against the server by content
hash before streaming, and leaves the session holding the filename, the
adopted content hash and its six-character short hash of the last file
processed; on a plain file exactly that one file is processed. -/
theorem c10_load_sample (env : UploadEnv) (sess : Session) (cs : List FileEntry)
    (f : FileEntry) (h : cs ≠ []) :
    (load_sample env sess (LoadInput.dir cs)).1 =
      { filename := some ((cs.getLast h).name)
        md5 := some (adoptedMd5 env (cs.getLast h))
        short_md5 := (adoptedMd5 env (cs.getLast h)).take 6
        server := sess.server } ∧
    (load_sample env sess (LoadInput.dir cs)).2 =
      cs.map (fun g => !env.hasSample (env.md5Hex g.content)) ∧
    load_sample env sess (LoadInput.file f) =
      ((loadOne env sess f).1, [(loadOne env sess f).2]) := by
  refine ⟨loadFold_fst env cs sess [] h, ?_, ?_⟩
  · simpa using loadFold_snd env cs sess []
  · rfl

/-- C10 (witness): of two files in a directory the first is already known
to the server (not streamed) and the second is streamed; the session ends
on the second file with the streamer-returned hash and its short form. -/
theorem c10_witness :
    csW ≠ [] ∧
    (load_sample envW Session.start (LoadInput.dir csW)).1 =
      { filename := some "f2", md5 := some "bbbbbbbb", short_md5 := "bbbbbb",
        server := "localhost" } ∧
    (load_sample envW Session.start (LoadInput.dir csW)).2 = [false, true] := by
  refine ⟨by decide, ?_, ?_⟩
  · rw [(c10_load_sample envW Session.start csW { name := "f1", content := [0] } (by decide)).1]
    decide
  · rw [(c10_load_sample envW Session.start csW { name := "f1", content := [0] } (by decide)).2.1]
    decide

end Workbench
